import Mathlib

/-!
# software_resolver.c — shallow embedding

The module wraps an external ETR (timer counter) driver behind a handle that
carries a copy of the configuration and a FreeRTOS mutex.  The embedding makes
the environment explicit:

* the ETR driver is a record of state-passing functions over an arbitrary
  driver state `D`; every call returns a C `int` status;
* the C heap is a list of slots, a pointer is `Option Nat` (`none` is NULL);
* FreeRTOS mutexes live in a table of "held" flags, a `SemaphoreHandle_t` is
  `Option Nat` (`none` is NULL);
* every interaction with the environment is appended to a chronological trace.

Operations that dereference an invalid pointer, take an invalid semaphore, or
spin forever in `mutex_lock` yield `none`.
-/

namespace SoftwareResolver

/-! ## Types taken from the headers -/

/-- Timer identity (`timer_num_t`), an enumeration that this module never inspects. -/
abbrev timer_num_t := Nat

/-- Pin pack (`timer_pins_pack_t`), an enumeration that this module never inspects. -/
abbrev timer_pins_pack_t := Nat

/-- Counter mode (`timer_counter_mode_t`), an enumeration that this module never inspects. -/
abbrev timer_counter_mode_t := Nat

/-- Number of values of a `uint32_t`. -/
def UINT32_MOD : Nat := 2 ^ 32

/-- Modelled from the spec: the `stm_err_t` result codes are declared in a header
that is not part of the sources; the three codes this module returns are the
success signal, the generic failure signal and the invalid-argument signal, taken
here as three distinct values. -/
inductive stm_err_t where
  | STM_OK
  | STM_FAIL
  | STM_ERR_INVALID_ARG
  deriving DecidableEq, Repr

/-- The six error-string constants defined at the top of the file (lines 9-14). -/
inductive ErrStr where
  | SOFTWARE_RESOLVER_INIT_ERR_STR
  | SOFTWARE_RESOLVER_SET_COUNTER_MODE_ERR_STR
  | SOFTWARE_RESOLVER_GET_VALUE_ERR_STR
  | SOFTWARE_RESOLVER_SET_VALUE_ERR_STR
  | SOFTWARE_RESOLVER_START_ERR_STR
  | SOFTWARE_RESOLVER_STOP_ERR_STR
  deriving DecidableEq, Repr

/-- Caller-supplied configuration (`software_resolver_config_t`). -/
structure software_resolver_config_t where
  timer_num : timer_num_t
  timer_pins_pack : timer_pins_pack_t
  max_reload : Nat
  counter_mode : timer_counter_mode_t
  deriving DecidableEq, Repr

/-- Configuration shape of the ETR driver (`etr_cfg_t`). -/
structure etr_cfg_t where
  timer_num : timer_num_t
  timer_pins_pack : timer_pins_pack_t
  max_reload : Nat
  counter_mode : timer_counter_mode_t
  deriving DecidableEq, Repr

/-- The handle structure (`software_resolver_t`, lines 27-33).  `lock = none` is a
NULL `SemaphoreHandle_t`. -/
structure software_resolver_t where
  timer_num : timer_num_t
  timer_pins_pack : timer_pins_pack_t
  max_reload : Nat
  counter_mode : timer_counter_mode_t
  lock : Option Nat
  deriving DecidableEq, Repr

/-! ## Environment -/

/-- The external ETR driver: each operation maps the driver state to a C `int`
status and a new driver state.  `etr_get_value` also receives the current content
of the output cell and returns the content it leaves there. -/
structure EtrDriver (D : Type) where
  etr_config : etr_cfg_t → D → Int × D
  etr_start : timer_num_t → D → Int × D
  etr_stop : timer_num_t → D → Int × D
  etr_get_value : timer_num_t → Nat → D → Int × Nat × D
  etr_set_value : timer_num_t → Nat → D → Int × D
  etr_set_mode : timer_num_t → timer_counter_mode_t → D → Int × D

/-- Observable interactions with the environment, in the order they happen. -/
inductive Event where
  | loge (str : ErrStr)
  | calloc (p : Option Nat)
  | free (p : Option Nat)
  | mutex_create (x : Option Nat)
  | take (x : Nat)
  | give (x : Nat)
  | etr_config (cfg : etr_cfg_t) (ret : Int)
  | etr_start (t : timer_num_t) (ret : Int)
  | etr_stop (t : timer_num_t) (ret : Int)
  | etr_get_value (t : timer_num_t) (ret : Int)
  | etr_set_value (t : timer_num_t) (value : Nat) (ret : Int)
  | etr_set_mode (t : timer_num_t) (mode : timer_counter_mode_t) (ret : Int)
  deriving DecidableEq, Repr

/-- The world the module runs in: driver state, heap of handle structures (a freed
slot is `none`), mutex table (`true` = held) and the event trace. -/
structure World (D : Type) where
  drv : D
  heap : List (Option software_resolver_t)
  mutexes : List Bool
  trace : List Event

/-- Append one event to the trace. -/
def World.emit {D : Type} (w : World D) (e : Event) : World D :=
  { w with trace := w.trace ++ [e] }

/-- `STM_LOGE`: fire-and-forget error log. -/
def STM_LOGE {D : Type} (str : ErrStr) (w : World D) : World D :=
  w.emit (Event.loge str)

/-- Dereference a handle pointer: the live structure it points to, if any. -/
def deref {D : Type} (w : World D) (p : Nat) : Option software_resolver_t :=
  (w.heap[p]?).join

/-- `calloc(1, sizeof(software_resolver_t))`: on success a fresh zero-filled slot
(all fields 0, `lock` NULL); on failure NULL.  Whether it succeeds is decided by
the environment (`ok`). -/
def calloc {D : Type} (ok : Bool) (w : World D) : Option Nat × World D :=
  if ok then
    (some w.heap.length,
      { w with heap := w.heap ++ [some ⟨0, 0, 0, 0, none⟩],
               trace := w.trace ++ [Event.calloc (some w.heap.length)] })
  else
    (none, w.emit (Event.calloc none))

/-- `free(p)`: `free(NULL)` does nothing; otherwise the slot is released. -/
def free {D : Type} (p : Option Nat) (w : World D) : World D :=
  match p with
  | none => w.emit (Event.free none)
  | some a => { w with heap := w.heap.set a none, trace := w.trace ++ [Event.free (some a)] }

/-- `xSemaphoreCreateMutex()`: on success a fresh mutex in the free state; NULL
when the kernel cannot allocate it (`ok = false`). -/
def xSemaphoreCreateMutex {D : Type} (ok : Bool) (w : World D) : Option Nat × World D :=
  if ok then
    (some w.mutexes.length,
      { w with mutexes := w.mutexes ++ [false],
               trace := w.trace ++ [Event.mutex_create (some w.mutexes.length)] })
  else
    (none, w.emit (Event.mutex_create none))

/-- `xSemaphoreTake(x, portMAX_DELAY)`: `some (true, _)` is `pdPASS` (the mutex was
free and is now held), `some (false, _)` is a timed-out attempt on a held mutex,
`none` is a take on NULL or on something that is not a mutex. -/
def xSemaphoreTake {D : Type} (x : Option Nat) (w : World D) : Option (Bool × World D) :=
  match x with
  | none => none
  | some l =>
    match w.mutexes[l]? with
    | none => none
    | some true => some (false, w)
    | some false =>
      some (true, { w with mutexes := w.mutexes.set l true, trace := w.trace ++ [Event.take l] })

/-- `xSemaphoreGive(x)`: the mutex becomes free.  The module ignores the result. -/
def xSemaphoreGive {D : Type} (x : Option Nat) (w : World D) : Option (World D) :=
  match x with
  | none => none
  | some l =>
    match w.mutexes[l]? with
    | none => none
    | some _ =>
      some { w with mutexes := w.mutexes.set l false, trace := w.trace ++ [Event.give l] }

/-- `mutex_lock(x)` (line 16): `while (xSemaphoreTake(x, portMAX_DELAY) != pdPASS)`.
The fuel bounds the number of loop iterations. -/
def mutex_lock {D : Type} : Nat → Option Nat → World D → Option (World D)
  | 0, _, _ => none
  | fuel + 1, x, w =>
    match xSemaphoreTake x w with
    | none => none
    | some (true, w1) => some w1
    | some (false, w1) => mutex_lock fuel x w1

/-- `mutex_unlock(x)` (line 17). -/
def mutex_unlock {D : Type} (x : Option Nat) (w : World D) : Option (World D) :=
  xSemaphoreGive x w

/-- `mutex_create()` (line 18). -/
def mutex_create {D : Type} (ok : Bool) (w : World D) : Option Nat × World D :=
  xSemaphoreCreateMutex ok w

/-! ## The module -/

/-- `_software_resolver_cleanup` (lines 35-37). -/
def _software_resolver_cleanup {D : Type} (handle : Option Nat) (w : World D) : World D :=
  free handle w

/-- `software_resolver_config` (lines 39-64).  `calloc_ok` and `mutex_ok` are the
environment's answers to the allocation and to the mutex creation. -/
def software_resolver_config {D : Type} (drv : EtrDriver D) (calloc_ok mutex_ok : Bool)
    (config : Option software_resolver_config_t) (w : World D) : Option Nat × World D :=
  match config with
  | none => (none, STM_LOGE ErrStr.SOFTWARE_RESOLVER_INIT_ERR_STR w)
  | some c =>
    match calloc calloc_ok w with
    | (none, w1) => (none, STM_LOGE ErrStr.SOFTWARE_RESOLVER_INIT_ERR_STR w1)
    | (some p, w1) =>
      let software_resolver_cfg : etr_cfg_t :=
        { timer_num := c.timer_num, timer_pins_pack := c.timer_pins_pack,
          max_reload := c.max_reload, counter_mode := c.counter_mode }
      let r := drv.etr_config software_resolver_cfg w1.drv
      let w2 := { w1 with drv := r.2, trace := w1.trace ++ [Event.etr_config software_resolver_cfg r.1] }
      if r.1 ≠ 0 then
        (none, _software_resolver_cleanup (some p) (STM_LOGE ErrStr.SOFTWARE_RESOLVER_INIT_ERR_STR w2))
      else
        let m := mutex_create mutex_ok w2
        (some p,
          { m.2 with heap := m.2.heap.set p (some
              { timer_num := c.timer_num, timer_pins_pack := c.timer_pins_pack,
                counter_mode := c.counter_mode, max_reload := c.max_reload, lock := m.1 }) })

/-- `software_resolver_start` (lines 66-82). -/
def software_resolver_start {D : Type} (drv : EtrDriver D) (fuel : Nat)
    (handle : Option Nat) (w : World D) : Option (stm_err_t × World D) :=
  match handle with
  | none => some (stm_err_t.STM_ERR_INVALID_ARG, STM_LOGE ErrStr.SOFTWARE_RESOLVER_START_ERR_STR w)
  | some p =>
    match deref w p with
    | none => none
    | some h =>
      match mutex_lock fuel h.lock w with
      | none => none
      | some w1 =>
        let r := drv.etr_start h.timer_num w1.drv
        let w2 := { w1 with drv := r.2, trace := w1.trace ++ [Event.etr_start h.timer_num r.1] }
        if r.1 ≠ 0 then
          match mutex_unlock h.lock (STM_LOGE ErrStr.SOFTWARE_RESOLVER_START_ERR_STR w2) with
          | none => none
          | some w3 => some (stm_err_t.STM_FAIL, w3)
        else
          match mutex_unlock h.lock w2 with
          | none => none
          | some w3 => some (stm_err_t.STM_OK, w3)

/-- `software_resolver_stop` (lines 84-100). -/
def software_resolver_stop {D : Type} (drv : EtrDriver D) (fuel : Nat)
    (handle : Option Nat) (w : World D) : Option (stm_err_t × World D) :=
  match handle with
  | none => some (stm_err_t.STM_ERR_INVALID_ARG, STM_LOGE ErrStr.SOFTWARE_RESOLVER_STOP_ERR_STR w)
  | some p =>
    match deref w p with
    | none => none
    | some h =>
      match mutex_lock fuel h.lock w with
      | none => none
      | some w1 =>
        let r := drv.etr_stop h.timer_num w1.drv
        let w2 := { w1 with drv := r.2, trace := w1.trace ++ [Event.etr_stop h.timer_num r.1] }
        if r.1 ≠ 0 then
          match mutex_unlock h.lock (STM_LOGE ErrStr.SOFTWARE_RESOLVER_STOP_ERR_STR w2) with
          | none => none
          | some w3 => some (stm_err_t.STM_FAIL, w3)
        else
          match mutex_unlock h.lock w2 with
          | none => none
          | some w3 => some (stm_err_t.STM_OK, w3)

/-- `software_resolver_get_value` (lines 102-119).  `value` is the content of the
cell the output pointer refers to (`none` for a NULL pointer); the result carries
the content of that cell on return. -/
def software_resolver_get_value {D : Type} (drv : EtrDriver D) (fuel : Nat)
    (handle : Option Nat) (value : Option Nat) (w : World D) :
    Option (stm_err_t × Option Nat × World D) :=
  match handle with
  | none =>
    some (stm_err_t.STM_ERR_INVALID_ARG, value, STM_LOGE ErrStr.SOFTWARE_RESOLVER_GET_VALUE_ERR_STR w)
  | some p =>
    match value with
    | none =>
      some (stm_err_t.STM_ERR_INVALID_ARG, none, STM_LOGE ErrStr.SOFTWARE_RESOLVER_GET_VALUE_ERR_STR w)
    | some old =>
      match deref w p with
      | none => none
      | some h =>
        match mutex_lock fuel h.lock w with
        | none => none
        | some w1 =>
          let r := drv.etr_get_value h.timer_num old w1.drv
          let out := r.2.1 % UINT32_MOD
          let w2 := { w1 with drv := r.2.2, trace := w1.trace ++ [Event.etr_get_value h.timer_num r.1] }
          if r.1 ≠ 0 then
            match mutex_unlock h.lock (STM_LOGE ErrStr.SOFTWARE_RESOLVER_GET_VALUE_ERR_STR w2) with
            | none => none
            | some w3 => some (stm_err_t.STM_FAIL, some out, w3)
          else
            match mutex_unlock h.lock w2 with
            | none => none
            | some w3 => some (stm_err_t.STM_OK, some out, w3)

/-- `software_resolver_set_value` (lines 121-137). -/
def software_resolver_set_value {D : Type} (drv : EtrDriver D) (fuel : Nat)
    (handle : Option Nat) (value : Nat) (w : World D) : Option (stm_err_t × World D) :=
  match handle with
  | none => some (stm_err_t.STM_ERR_INVALID_ARG, STM_LOGE ErrStr.SOFTWARE_RESOLVER_SET_VALUE_ERR_STR w)
  | some p =>
    match deref w p with
    | none => none
    | some h =>
      match mutex_lock fuel h.lock w with
      | none => none
      | some w1 =>
        let r := drv.etr_set_value h.timer_num value w1.drv
        let w2 := { w1 with drv := r.2, trace := w1.trace ++ [Event.etr_set_value h.timer_num value r.1] }
        if r.1 ≠ 0 then
          match mutex_unlock h.lock (STM_LOGE ErrStr.SOFTWARE_RESOLVER_SET_VALUE_ERR_STR w2) with
          | none => none
          | some w3 => some (stm_err_t.STM_FAIL, w3)
        else
          match mutex_unlock h.lock w2 with
          | none => none
          | some w3 => some (stm_err_t.STM_OK, w3)

/-- `software_resolver_set_mode` (lines 139-155). -/
def software_resolver_set_mode {D : Type} (drv : EtrDriver D) (fuel : Nat)
    (handle : Option Nat) (counter_mode : timer_counter_mode_t) (w : World D) :
    Option (stm_err_t × World D) :=
  match handle with
  | none =>
    some (stm_err_t.STM_ERR_INVALID_ARG, STM_LOGE ErrStr.SOFTWARE_RESOLVER_SET_COUNTER_MODE_ERR_STR w)
  | some p =>
    match deref w p with
    | none => none
    | some h =>
      match mutex_lock fuel h.lock w with
      | none => none
      | some w1 =>
        let r := drv.etr_set_mode h.timer_num counter_mode w1.drv
        let w2 := { w1 with drv := r.2, trace := w1.trace ++ [Event.etr_set_mode h.timer_num counter_mode r.1] }
        if r.1 ≠ 0 then
          match mutex_unlock h.lock (STM_LOGE ErrStr.SOFTWARE_RESOLVER_SET_COUNTER_MODE_ERR_STR w2) with
          | none => none
          | some w3 => some (stm_err_t.STM_FAIL, w3)
        else
          match mutex_unlock h.lock w2 with
          | none => none
          | some w3 => some (stm_err_t.STM_OK, w3)

/-- `software_resolver_destroy` (lines 157-160). -/
def software_resolver_destroy {D : Type} (handle : Option Nat) (w : World D) : World D :=
  _software_resolver_cleanup handle w

/-! ## Vocabulary for the statements -/

/-- Events of one guarded driver call, in order: the guard is taken, the driver is
called, a nonzero status is logged, the guard is given back. -/
def guardedCall (l : Nat) (call : Event) (ret : Int) (err : ErrStr) : List Event :=
  [Event.take l, call] ++ (if ret = 0 then [] else [Event.loge err]) ++ [Event.give l]

/-- A driver over a trivial state whose every operation returns the status `ret`;
`etr_get_value` leaves the output cell as it found it. -/
def constDriver (ret : Int) : EtrDriver Unit where
  etr_config := fun _ d => (ret, d)
  etr_start := fun _ d => (ret, d)
  etr_stop := fun _ d => (ret, d)
  etr_get_value := fun _ old d => (ret, old, d)
  etr_set_value := fun _ _ d => (ret, d)
  etr_set_mode := fun _ _ d => (ret, d)

/-- A configured handle structure used in the examples: timer 2, pin pack 1,
max reload 1000, counter mode 0, guard 0. -/
def h0 : software_resolver_t :=
  { timer_num := 2, timer_pins_pack := 1, max_reload := 1000, counter_mode := 0, lock := some 0 }

/-- A world with the handle `h0` at address 0 and its guard free. -/
def w0 : World Unit :=
  { drv := (), heap := [some h0], mutexes := [false], trace := [] }

/-- Number of handle structures currently allocated on the heap. -/
def liveCount (heap : List (Option software_resolver_t)) : Nat :=
  heap.countP Option.isSome

/-- Number of successful allocations recorded in a trace. -/
def allocCount (tr : List Event) : Nat :=
  tr.countP (fun e => match e with
    | Event.calloc (some _) => true
    | _ => false)

/-- Number of releases of a non-NULL pointer recorded in a trace. -/
def freeCount (tr : List Event) : Nat :=
  tr.countP (fun e => match e with
    | Event.free (some _) => true
    | _ => false)

/-- The driver configuration that `software_resolver_config` builds from `c`
(lines 49-53). -/
def cfgOf (c : software_resolver_config_t) : etr_cfg_t :=
  { timer_num := c.timer_num, timer_pins_pack := c.timer_pins_pack,
    max_reload := c.max_reload, counter_mode := c.counter_mode }

/-- A configuration used in the examples. -/
def c0 : software_resolver_config_t :=
  { timer_num := 2, timer_pins_pack := 1, max_reload := 1000, counter_mode := 0 }

/-- The empty world: nothing allocated, no mutex created, nothing happened. -/
def wEmpty : World Unit :=
  { drv := (), heap := [], mutexes := [], trace := [] }

/-- A test double for the driver that stores one counter value per timer:
`etr_set_value` stores the value and returns 0, `etr_get_value` returns the stored
value and 0, every other operation returns 0 and changes nothing. -/
def fakeDriver : EtrDriver (timer_num_t → Nat) where
  etr_config := fun _ d => (0, d)
  etr_start := fun _ d => (0, d)
  etr_stop := fun _ d => (0, d)
  etr_get_value := fun t _ d => (0, d t, d)
  etr_set_value := fun t v d => (0, fun t1 => if t1 = t then v else d t1)
  etr_set_mode := fun _ _ d => (0, d)

/-- The world `w0` over the fake driver, every stored counter being 0. -/
def wFake : World (timer_num_t → Nat) :=
  { drv := fun _ => 0, heap := [some h0], mutexes := [false], trace := [] }

/-! ## Interleaved execution of tasks sharing one handle

Several tasks call the guarded operations on the handle at address `p`.  A task is
preempted only between the statements of an operation; the driver call has a
beginning and an end, so that other tasks may run while it is in progress.  The
statements are those of the five function bodies: the argument check, one
iteration of the `mutex_lock` loop, the driver call, and the (log and)
`mutex_unlock` before the return. -/

/-- A call of one of the guarded operations with valid arguments: the content of
the output cell of get_value, the value of set_value, the mode of set_mode. -/
inductive Op where
  | start
  | stop
  | get_value (old : Nat)
  | set_value (value : Nat)
  | set_mode (mode : timer_counter_mode_t)
  deriving DecidableEq, Repr

/-- Where a task stands in the body shared by the five guarded operations. -/
inductive Pc where
  /-- Outside any operation, none called yet. -/
  | idle
  /-- The argument checks passed; the task is in the loop of `mutex_lock`. -/
  | locking (op : Op)
  /-- The take passed; the task is about to call the driver. -/
  | calling (op : Op)
  /-- The driver call has begun and has not returned yet. -/
  | in_driver (op : Op)
  /-- The driver returned `ret` (and left `out` in the output cell); the task is
  about to log a failure, `mutex_unlock` and return. -/
  | unlocking (op : Op) (ret : Int) (out : Option Nat)
  /-- The operation returned `r`. -/
  | returned (r : stm_err_t) (out : Option Nat)
  /-- The task dereferenced an invalid handle or used an invalid semaphore. -/
  | stuck
  deriving DecidableEq, Repr

/-- The shared world and the position of every task. -/
structure Sys (D : Type) where
  w : World D
  pcs : Nat → Pc

/-- One scheduling decision: the task that runs its next statement, and the
operation it enters if it is outside any operation. -/
structure Sched where
  task : Nat
  op : Op

/-- The error string each operation logs. -/
def Op.err : Op → ErrStr
  | Op.start => ErrStr.SOFTWARE_RESOLVER_START_ERR_STR
  | Op.stop => ErrStr.SOFTWARE_RESOLVER_STOP_ERR_STR
  | Op.get_value _ => ErrStr.SOFTWARE_RESOLVER_GET_VALUE_ERR_STR
  | Op.set_value _ => ErrStr.SOFTWARE_RESOLVER_SET_VALUE_ERR_STR
  | Op.set_mode _ => ErrStr.SOFTWARE_RESOLVER_SET_COUNTER_MODE_ERR_STR

/-- The driver call of each operation (lines 73, 91, 110, 128, 146): the status,
the content left in the output cell, and the world after the call. -/
def driverCall {D : Type} (drv : EtrDriver D) (h : software_resolver_t) (op : Op) (w : World D) :
    Int × Option Nat × World D :=
  match op with
  | Op.start =>
    let r := drv.etr_start h.timer_num w.drv
    (r.1, none, { w with drv := r.2, trace := w.trace ++ [Event.etr_start h.timer_num r.1] })
  | Op.stop =>
    let r := drv.etr_stop h.timer_num w.drv
    (r.1, none, { w with drv := r.2, trace := w.trace ++ [Event.etr_stop h.timer_num r.1] })
  | Op.get_value old =>
    let r := drv.etr_get_value h.timer_num old w.drv
    (r.1, some (r.2.1 % UINT32_MOD),
      { w with drv := r.2.2, trace := w.trace ++ [Event.etr_get_value h.timer_num r.1] })
  | Op.set_value value =>
    let r := drv.etr_set_value h.timer_num value w.drv
    (r.1, none,
      { w with drv := r.2, trace := w.trace ++ [Event.etr_set_value h.timer_num value r.1] })
  | Op.set_mode mode =>
    let r := drv.etr_set_mode h.timer_num mode w.drv
    (r.1, none,
      { w with drv := r.2, trace := w.trace ++ [Event.etr_set_mode h.timer_num mode r.1] })

/-- Move task `i` to `pc`. -/
def Sys.goto {D : Type} (s : Sys D) (i : Nat) (pc : Pc) : Sys D :=
  { s with pcs := fun k => if k = i then pc else s.pcs k }

/-- The task chosen by `e` runs its next statement on the handle at address `p`.
* idle or returned: it enters `e.op`, the argument checks pass;
* locking: one `xSemaphoreTake(handle->lock, portMAX_DELAY)`; if it does not pass
  the task stays in the loop;
* calling: the driver call begins;
* in_driver: the driver call ends, with its effect on the driver state;
* unlocking: a nonzero status is logged, `mutex_unlock(handle->lock)`, return. -/
def step {D : Type} (drv : EtrDriver D) (p : Nat) (s : Sys D) (e : Sched) : Sys D :=
  match s.pcs e.task with
  | Pc.idle => s.goto e.task (Pc.locking e.op)
  | Pc.returned _ _ => s.goto e.task (Pc.locking e.op)
  | Pc.locking op =>
    match deref s.w p with
    | none => s.goto e.task Pc.stuck
    | some h =>
      match xSemaphoreTake h.lock s.w with
      | none => s.goto e.task Pc.stuck
      | some (true, w1) => { s with w := w1 }.goto e.task (Pc.calling op)
      | some (false, w1) => { s with w := w1 }
  | Pc.calling op => s.goto e.task (Pc.in_driver op)
  | Pc.in_driver op =>
    match deref s.w p with
    | none => s.goto e.task Pc.stuck
    | some h =>
      let r := driverCall drv h op s.w
      { s with w := r.2.2 }.goto e.task (Pc.unlocking op r.1 r.2.1)
  | Pc.unlocking op ret out =>
    match deref s.w p with
    | none => s.goto e.task Pc.stuck
    | some h =>
      match mutex_unlock h.lock (if ret ≠ 0 then STM_LOGE op.err s.w else s.w) with
      | none => s.goto e.task Pc.stuck
      | some w3 =>
        { s with w := w3 }.goto e.task
          (Pc.returned (if ret ≠ 0 then stm_err_t.STM_FAIL else stm_err_t.STM_OK) out)
  | Pc.stuck => s

/-- Run a whole schedule. -/
def run {D : Type} (drv : EtrDriver D) (p : Nat) (s : Sys D) (sched : List Sched) : Sys D :=
  sched.foldl (step drv p) s

/-- Every task outside any operation, in the world `w`. -/
def init {D : Type} (w : World D) : Sys D :=
  { w := w, pcs := fun _ => Pc.idle }

/-- The task is inside a driver call. -/
def Pc.inDriver : Pc → Bool
  | Pc.in_driver _ => true
  | _ => false

/-- The task is between a passed take and the matching give. -/
def Pc.holdsGuard : Pc → Bool
  | Pc.calling _ => true
  | Pc.in_driver _ => true
  | Pc.unlocking _ _ _ => true
  | _ => false

/-- The handle at address `p` is live, its guard is a created mutex, and that
mutex is held. -/
def Held {D : Type} (p : Nat) (w : World D) : Prop :=
  ∃ h l, deref w p = some h ∧ h.lock = some l ∧ w.mutexes[l]? = some true

/-- The invariant of the interleaved system: at most one task is between a passed
take and its give, and while one is, the mutex of the handle is held. -/
def GuardInv {D : Type} (p : Nat) (s : Sys D) : Prop :=
  (∀ i j, (s.pcs i).holdsGuard = true → (s.pcs j).holdsGuard = true → i = j) ∧
  (∀ i, (s.pcs i).holdsGuard = true → Held p s.w)

/-- The operation `op` called as a whole on the handle at address `p`. -/
def callOp {D : Type} (drv : EtrDriver D) (fuel p : Nat) (op : Op) (w : World D) :
    Option (stm_err_t × Option Nat × World D) :=
  match op with
  | Op.start => (software_resolver_start drv fuel (some p) w).map (fun x => (x.1, none, x.2))
  | Op.stop => (software_resolver_stop drv fuel (some p) w).map (fun x => (x.1, none, x.2))
  | Op.get_value old => software_resolver_get_value drv fuel (some p) (some old) w
  | Op.set_value value =>
    (software_resolver_set_value drv fuel (some p) value w).map (fun x => (x.1, none, x.2))
  | Op.set_mode mode =>
    (software_resolver_set_mode drv fuel (some p) mode w).map (fun x => (x.1, none, x.2))

/-- A schedule of two tasks: task 0 enters start, task 1 enters get_value, task 0
takes the guard, task 1 tries to take it, task 0 begins its driver call, task 1
tries again. -/
def sched0 : List Sched :=
  [⟨0, Op.start⟩, ⟨1, Op.get_value 5⟩, ⟨0, Op.start⟩, ⟨1, Op.get_value 5⟩,
   ⟨0, Op.start⟩, ⟨1, Op.get_value 5⟩]

/-! ## Auxiliary facts about the environment -/

theorem set_set_same {α : Type} (xs : List α) (i : Nat) (a b : α) :
    (xs.set i a).set i b = xs.set i b := by
  induction xs generalizing i with
  | nil => rfl
  | cons x xs ih =>
    cases i with
    | zero => rfl
    | succ i => simp [List.set, ih]

theorem set_same_of_getElem? {α : Type} (xs : List α) (i : Nat) (a : α)
    (h : xs[i]? = some a) : xs.set i a = xs := by
  induction xs generalizing i with
  | nil => rfl
  | cons x xs ih =>
    cases i with
    | zero => simp at h; simp [h]
    | succ i => simp at h; simp [List.set]; exact ih i (by simpa using h)

theorem getElem?_set_same {α : Type} (xs : List α) (i : Nat) (a b : α)
    (h : xs[i]? = some a) : (xs.set i b)[i]? = some b := by
  induction xs generalizing i with
  | nil => simp at h
  | cons x xs ih =>
    cases i with
    | zero => simp
    | succ i => simp at h; simpa using ih i (by simpa using h)

/-- With the guard free, `mutex_lock` returns after one take, for any positive fuel. -/
theorem mutex_lock_free {D : Type} (fuel l : Nat) (w : World D)
    (hf : w.mutexes[l]? = some false) :
    mutex_lock (fuel + 1) (some l) w =
      some { w with mutexes := w.mutexes.set l true, trace := w.trace ++ [Event.take l] } := by
  simp [mutex_lock, xSemaphoreTake, hf]

/-- Releasing a guard that was free before it was taken restores the mutex table. -/
theorem mutex_unlock_taken {D : Type} (l : Nat) (d : D) (hp : List (Option software_resolver_t))
    (ms : List Bool) (tr : List Event) (hf : ms[l]? = some false) :
    mutex_unlock (some l) ({ drv := d, heap := hp, mutexes := ms.set l true, trace := tr } : World D) =
      some { drv := d, heap := hp, mutexes := ms, trace := tr ++ [Event.give l] } := by
  have h1 := getElem?_set_same ms l false true hf
  simp only [mutex_unlock, xSemaphoreGive, h1, set_set_same, set_same_of_getElem? ms l false hf]

/-- What `software_resolver_start` does on a live handle whose guard is free. -/
theorem start_run {D : Type} (drv : EtrDriver D) (fuel p l : Nat) (h : software_resolver_t)
    (w : World D) (hp : deref w p = some h) (hl : h.lock = some l)
    (hf : w.mutexes[l]? = some false) :
    software_resolver_start drv (fuel + 1) (some p) w =
      some (if (drv.etr_start h.timer_num w.drv).1 = 0 then stm_err_t.STM_OK else stm_err_t.STM_FAIL,
        { drv := (drv.etr_start h.timer_num w.drv).2, heap := w.heap, mutexes := w.mutexes,
          trace := w.trace ++ [Event.take l, Event.etr_start h.timer_num (drv.etr_start h.timer_num w.drv).1]
            ++ (if (drv.etr_start h.timer_num w.drv).1 = 0 then []
                else [Event.loge ErrStr.SOFTWARE_RESOLVER_START_ERR_STR])
            ++ [Event.give l] }) := by
  simp only [software_resolver_start, hp, hl, mutex_lock_free fuel l w hf, STM_LOGE, World.emit]
  by_cases hr : (drv.etr_start h.timer_num w.drv).1 = 0
  · simp [hr, mutex_unlock_taken _ _ _ _ _ hf]
  · simp [hr, mutex_unlock_taken _ _ _ _ _ hf]

/-- What `software_resolver_stop` does on a live handle whose guard is free. -/
theorem stop_run {D : Type} (drv : EtrDriver D) (fuel p l : Nat) (h : software_resolver_t)
    (w : World D) (hp : deref w p = some h) (hl : h.lock = some l)
    (hf : w.mutexes[l]? = some false) :
    software_resolver_stop drv (fuel + 1) (some p) w =
      some (if (drv.etr_stop h.timer_num w.drv).1 = 0 then stm_err_t.STM_OK else stm_err_t.STM_FAIL,
        { drv := (drv.etr_stop h.timer_num w.drv).2, heap := w.heap, mutexes := w.mutexes,
          trace := w.trace ++ [Event.take l, Event.etr_stop h.timer_num (drv.etr_stop h.timer_num w.drv).1]
            ++ (if (drv.etr_stop h.timer_num w.drv).1 = 0 then []
                else [Event.loge ErrStr.SOFTWARE_RESOLVER_STOP_ERR_STR])
            ++ [Event.give l] }) := by
  simp only [software_resolver_stop, hp, hl, mutex_lock_free fuel l w hf, STM_LOGE, World.emit]
  by_cases hr : (drv.etr_stop h.timer_num w.drv).1 = 0
  · simp [hr, mutex_unlock_taken _ _ _ _ _ hf]
  · simp [hr, mutex_unlock_taken _ _ _ _ _ hf]

/-- What `software_resolver_set_value` does on a live handle whose guard is free. -/
theorem set_value_run {D : Type} (drv : EtrDriver D) (fuel p l : Nat) (h : software_resolver_t)
    (value : Nat) (w : World D) (hp : deref w p = some h) (hl : h.lock = some l)
    (hf : w.mutexes[l]? = some false) :
    software_resolver_set_value drv (fuel + 1) (some p) value w =
      some (if (drv.etr_set_value h.timer_num value w.drv).1 = 0 then stm_err_t.STM_OK else stm_err_t.STM_FAIL,
        { drv := (drv.etr_set_value h.timer_num value w.drv).2, heap := w.heap, mutexes := w.mutexes,
          trace := w.trace ++ [Event.take l, Event.etr_set_value h.timer_num value (drv.etr_set_value h.timer_num value w.drv).1]
            ++ (if (drv.etr_set_value h.timer_num value w.drv).1 = 0 then []
                else [Event.loge ErrStr.SOFTWARE_RESOLVER_SET_VALUE_ERR_STR])
            ++ [Event.give l] }) := by
  simp only [software_resolver_set_value, hp, hl, mutex_lock_free fuel l w hf, STM_LOGE, World.emit]
  by_cases hr : (drv.etr_set_value h.timer_num value w.drv).1 = 0
  · simp [hr, mutex_unlock_taken _ _ _ _ _ hf]
  · simp [hr, mutex_unlock_taken _ _ _ _ _ hf]

/-- What `software_resolver_set_mode` does on a live handle whose guard is free. -/
theorem set_mode_run {D : Type} (drv : EtrDriver D) (fuel p l : Nat) (h : software_resolver_t)
    (counter_mode : timer_counter_mode_t) (w : World D) (hp : deref w p = some h) (hl : h.lock = some l)
    (hf : w.mutexes[l]? = some false) :
    software_resolver_set_mode drv (fuel + 1) (some p) counter_mode w =
      some (if (drv.etr_set_mode h.timer_num counter_mode w.drv).1 = 0 then stm_err_t.STM_OK else stm_err_t.STM_FAIL,
        { drv := (drv.etr_set_mode h.timer_num counter_mode w.drv).2, heap := w.heap, mutexes := w.mutexes,
          trace := w.trace ++ [Event.take l, Event.etr_set_mode h.timer_num counter_mode (drv.etr_set_mode h.timer_num counter_mode w.drv).1]
            ++ (if (drv.etr_set_mode h.timer_num counter_mode w.drv).1 = 0 then []
                else [Event.loge ErrStr.SOFTWARE_RESOLVER_SET_COUNTER_MODE_ERR_STR])
            ++ [Event.give l] }) := by
  simp only [software_resolver_set_mode, hp, hl, mutex_lock_free fuel l w hf, STM_LOGE, World.emit]
  by_cases hr : (drv.etr_set_mode h.timer_num counter_mode w.drv).1 = 0
  · simp [hr, mutex_unlock_taken _ _ _ _ _ hf]
  · simp [hr, mutex_unlock_taken _ _ _ _ _ hf]

/-- What `software_resolver_get_value` does on a live handle whose guard is free,
with a non-NULL output pointer. -/
theorem get_value_run {D : Type} (drv : EtrDriver D) (fuel p l old : Nat) (h : software_resolver_t)
    (w : World D) (hp : deref w p = some h) (hl : h.lock = some l)
    (hf : w.mutexes[l]? = some false) :
    software_resolver_get_value drv (fuel + 1) (some p) (some old) w =
      some (if (drv.etr_get_value h.timer_num old w.drv).1 = 0 then stm_err_t.STM_OK
            else stm_err_t.STM_FAIL,
        some ((drv.etr_get_value h.timer_num old w.drv).2.1 % UINT32_MOD),
        { drv := (drv.etr_get_value h.timer_num old w.drv).2.2, heap := w.heap, mutexes := w.mutexes,
          trace := w.trace
            ++ [Event.take l, Event.etr_get_value h.timer_num (drv.etr_get_value h.timer_num old w.drv).1]
            ++ (if (drv.etr_get_value h.timer_num old w.drv).1 = 0 then []
                else [Event.loge ErrStr.SOFTWARE_RESOLVER_GET_VALUE_ERR_STR])
            ++ [Event.give l] }) := by
  simp only [software_resolver_get_value, hp, hl, mutex_lock_free fuel l w hf, STM_LOGE, World.emit]
  by_cases hr : (drv.etr_get_value h.timer_num old w.drv).1 = 0
  · simp [hr, mutex_unlock_taken _ _ _ _ _ hf]
  · simp [hr, mutex_unlock_taken _ _ _ _ _ hf]

/-! ## Guard discipline and result codes of the five guarded operations -/

/-- C1: for start, stop, get_value, set_value and set_mode, on a live handle whose
guard is free at entry (and a non-NULL output pointer for get_value), whatever
status the driver returns, the operation returns, its guard is free again on
return, and the events it produced are exactly: guard taken, the driver call,
(a log entry when the status is nonzero), guard given back. -/
theorem guard_taken_before_call_and_released {D : Type} (drv : EtrDriver D) (fuel p l old value : Nat)
    (mode : timer_counter_mode_t) (h : software_resolver_t) (w : World D)
    (hfuel : 0 < fuel) (hp : deref w p = some h) (hl : h.lock = some l)
    (hf : w.mutexes[l]? = some false) :
    (∃ r w', software_resolver_start drv fuel (some p) w = some (r, w') ∧
        w'.mutexes[l]? = some false ∧
        w'.trace = w.trace ++ guardedCall l (Event.etr_start h.timer_num (drv.etr_start h.timer_num w.drv).1)
          (drv.etr_start h.timer_num w.drv).1 ErrStr.SOFTWARE_RESOLVER_START_ERR_STR) ∧
    (∃ r w', software_resolver_stop drv fuel (some p) w = some (r, w') ∧
        w'.mutexes[l]? = some false ∧
        w'.trace = w.trace ++ guardedCall l (Event.etr_stop h.timer_num (drv.etr_stop h.timer_num w.drv).1)
          (drv.etr_stop h.timer_num w.drv).1 ErrStr.SOFTWARE_RESOLVER_STOP_ERR_STR) ∧
    (∃ r out w', software_resolver_get_value drv fuel (some p) (some old) w = some (r, out, w') ∧
        w'.mutexes[l]? = some false ∧
        w'.trace = w.trace ++ guardedCall l (Event.etr_get_value h.timer_num (drv.etr_get_value h.timer_num old w.drv).1)
          (drv.etr_get_value h.timer_num old w.drv).1 ErrStr.SOFTWARE_RESOLVER_GET_VALUE_ERR_STR) ∧
    (∃ r w', software_resolver_set_value drv fuel (some p) value w = some (r, w') ∧
        w'.mutexes[l]? = some false ∧
        w'.trace = w.trace ++ guardedCall l (Event.etr_set_value h.timer_num value (drv.etr_set_value h.timer_num value w.drv).1)
          (drv.etr_set_value h.timer_num value w.drv).1 ErrStr.SOFTWARE_RESOLVER_SET_VALUE_ERR_STR) ∧
    (∃ r w', software_resolver_set_mode drv fuel (some p) mode w = some (r, w') ∧
        w'.mutexes[l]? = some false ∧
        w'.trace = w.trace ++ guardedCall l (Event.etr_set_mode h.timer_num mode (drv.etr_set_mode h.timer_num mode w.drv).1)
          (drv.etr_set_mode h.timer_num mode w.drv).1 ErrStr.SOFTWARE_RESOLVER_SET_COUNTER_MODE_ERR_STR) := by
  obtain ⟨k, rfl⟩ : ∃ k, fuel = k + 1 := ⟨fuel - 1, by omega⟩
  refine ⟨⟨_, _, start_run drv k p l h w hp hl hf, hf, ?_⟩,
    ⟨_, _, stop_run drv k p l h w hp hl hf, hf, ?_⟩,
    ⟨_, _, _, get_value_run drv k p l old h w hp hl hf, hf, ?_⟩,
    ⟨_, _, set_value_run drv k p l h value w hp hl hf, hf, ?_⟩,
    ⟨_, _, set_mode_run drv k p l h mode w hp hl hf, hf, ?_⟩⟩ <;>
  simp [guardedCall]

/-- C3: for start, stop, get_value, set_value and set_mode called on a live handle
with a free guard (and a non-NULL output pointer for get_value), the operation
returns a result that is STM_OK exactly when the driver call returned 0 and is
STM_FAIL for every nonzero driver status. -/
theorem result_reflects_driver_status {D : Type} (drv : EtrDriver D) (fuel p l old value : Nat)
    (mode : timer_counter_mode_t) (h : software_resolver_t) (w : World D)
    (hfuel : 0 < fuel) (hp : deref w p = some h) (hl : h.lock = some l)
    (hf : w.mutexes[l]? = some false) :
    (∃ r w', software_resolver_start drv fuel (some p) w = some (r, w') ∧
        (r = stm_err_t.STM_OK ↔ (drv.etr_start h.timer_num w.drv).1 = 0) ∧
        ((drv.etr_start h.timer_num w.drv).1 ≠ 0 → r = stm_err_t.STM_FAIL)) ∧
    (∃ r w', software_resolver_stop drv fuel (some p) w = some (r, w') ∧
        (r = stm_err_t.STM_OK ↔ (drv.etr_stop h.timer_num w.drv).1 = 0) ∧
        ((drv.etr_stop h.timer_num w.drv).1 ≠ 0 → r = stm_err_t.STM_FAIL)) ∧
    (∃ r out w', software_resolver_get_value drv fuel (some p) (some old) w = some (r, out, w') ∧
        (r = stm_err_t.STM_OK ↔ (drv.etr_get_value h.timer_num old w.drv).1 = 0) ∧
        ((drv.etr_get_value h.timer_num old w.drv).1 ≠ 0 → r = stm_err_t.STM_FAIL)) ∧
    (∃ r w', software_resolver_set_value drv fuel (some p) value w = some (r, w') ∧
        (r = stm_err_t.STM_OK ↔ (drv.etr_set_value h.timer_num value w.drv).1 = 0) ∧
        ((drv.etr_set_value h.timer_num value w.drv).1 ≠ 0 → r = stm_err_t.STM_FAIL)) ∧
    (∃ r w', software_resolver_set_mode drv fuel (some p) mode w = some (r, w') ∧
        (r = stm_err_t.STM_OK ↔ (drv.etr_set_mode h.timer_num mode w.drv).1 = 0) ∧
        ((drv.etr_set_mode h.timer_num mode w.drv).1 ≠ 0 → r = stm_err_t.STM_FAIL)) := by
  obtain ⟨k, rfl⟩ : ∃ k, fuel = k + 1 := ⟨fuel - 1, by omega⟩
  refine ⟨⟨_, _, start_run drv k p l h w hp hl hf, ?_, ?_⟩,
    ⟨_, _, stop_run drv k p l h w hp hl hf, ?_, ?_⟩,
    ⟨_, _, _, get_value_run drv k p l old h w hp hl hf, ?_, ?_⟩,
    ⟨_, _, set_value_run drv k p l h value w hp hl hf, ?_, ?_⟩,
    ⟨_, _, set_mode_run drv k p l h mode w hp hl hf, ?_, ?_⟩⟩ <;>
  · split <;> simp_all

/-- Instance of C1 on the handle `h0` with a driver that fails with status 7. -/
theorem guard_taken_before_call_and_released_witness :
    0 < 1 ∧ deref w0 0 = some h0 ∧ h0.lock = some 0 ∧ w0.mutexes[0]? = some false ∧
    (∃ r w', software_resolver_start (constDriver 7) 1 (some 0) w0 = some (r, w') ∧
        w'.mutexes[0]? = some false ∧
        w'.trace = w0.trace ++ guardedCall 0 (Event.etr_start h0.timer_num ((constDriver 7).etr_start h0.timer_num w0.drv).1)
          ((constDriver 7).etr_start h0.timer_num w0.drv).1 ErrStr.SOFTWARE_RESOLVER_START_ERR_STR) ∧
    (∃ r w', software_resolver_stop (constDriver 7) 1 (some 0) w0 = some (r, w') ∧
        w'.mutexes[0]? = some false ∧
        w'.trace = w0.trace ++ guardedCall 0 (Event.etr_stop h0.timer_num ((constDriver 7).etr_stop h0.timer_num w0.drv).1)
          ((constDriver 7).etr_stop h0.timer_num w0.drv).1 ErrStr.SOFTWARE_RESOLVER_STOP_ERR_STR) ∧
    (∃ r out w', software_resolver_get_value (constDriver 7) 1 (some 0) (some 5) w0 = some (r, out, w') ∧
        w'.mutexes[0]? = some false ∧
        w'.trace = w0.trace ++ guardedCall 0 (Event.etr_get_value h0.timer_num ((constDriver 7).etr_get_value h0.timer_num 5 w0.drv).1)
          ((constDriver 7).etr_get_value h0.timer_num 5 w0.drv).1 ErrStr.SOFTWARE_RESOLVER_GET_VALUE_ERR_STR) ∧
    (∃ r w', software_resolver_set_value (constDriver 7) 1 (some 0) 9 w0 = some (r, w') ∧
        w'.mutexes[0]? = some false ∧
        w'.trace = w0.trace ++ guardedCall 0 (Event.etr_set_value h0.timer_num 9 ((constDriver 7).etr_set_value h0.timer_num 9 w0.drv).1)
          ((constDriver 7).etr_set_value h0.timer_num 9 w0.drv).1 ErrStr.SOFTWARE_RESOLVER_SET_VALUE_ERR_STR) ∧
    (∃ r w', software_resolver_set_mode (constDriver 7) 1 (some 0) 3 w0 = some (r, w') ∧
        w'.mutexes[0]? = some false ∧
        w'.trace = w0.trace ++ guardedCall 0 (Event.etr_set_mode h0.timer_num 3 ((constDriver 7).etr_set_mode h0.timer_num 3 w0.drv).1)
          ((constDriver 7).etr_set_mode h0.timer_num 3 w0.drv).1 ErrStr.SOFTWARE_RESOLVER_SET_COUNTER_MODE_ERR_STR) :=
  ⟨by decide, rfl, rfl, rfl,
    guard_taken_before_call_and_released (constDriver 7) 1 0 0 5 9 3 h0 w0 (by decide) rfl rfl rfl⟩

/-- Instance of C3 on the handle `h0` with a driver that fails with status -1. -/
theorem result_reflects_driver_status_witness :
    0 < 2 ∧ deref w0 0 = some h0 ∧ h0.lock = some 0 ∧ w0.mutexes[0]? = some false ∧
    (∃ r w', software_resolver_start (constDriver (-1)) 2 (some 0) w0 = some (r, w') ∧
        (r = stm_err_t.STM_OK ↔ ((constDriver (-1)).etr_start h0.timer_num w0.drv).1 = 0) ∧
        (((constDriver (-1)).etr_start h0.timer_num w0.drv).1 ≠ 0 → r = stm_err_t.STM_FAIL)) ∧
    (∃ r w', software_resolver_stop (constDriver (-1)) 2 (some 0) w0 = some (r, w') ∧
        (r = stm_err_t.STM_OK ↔ ((constDriver (-1)).etr_stop h0.timer_num w0.drv).1 = 0) ∧
        (((constDriver (-1)).etr_stop h0.timer_num w0.drv).1 ≠ 0 → r = stm_err_t.STM_FAIL)) ∧
    (∃ r out w', software_resolver_get_value (constDriver (-1)) 2 (some 0) (some 5) w0 = some (r, out, w') ∧
        (r = stm_err_t.STM_OK ↔ ((constDriver (-1)).etr_get_value h0.timer_num 5 w0.drv).1 = 0) ∧
        (((constDriver (-1)).etr_get_value h0.timer_num 5 w0.drv).1 ≠ 0 → r = stm_err_t.STM_FAIL)) ∧
    (∃ r w', software_resolver_set_value (constDriver (-1)) 2 (some 0) 9 w0 = some (r, w') ∧
        (r = stm_err_t.STM_OK ↔ ((constDriver (-1)).etr_set_value h0.timer_num 9 w0.drv).1 = 0) ∧
        (((constDriver (-1)).etr_set_value h0.timer_num 9 w0.drv).1 ≠ 0 → r = stm_err_t.STM_FAIL)) ∧
    (∃ r w', software_resolver_set_mode (constDriver (-1)) 2 (some 0) 3 w0 = some (r, w') ∧
        (r = stm_err_t.STM_OK ↔ ((constDriver (-1)).etr_set_mode h0.timer_num 3 w0.drv).1 = 0) ∧
        (((constDriver (-1)).etr_set_mode h0.timer_num 3 w0.drv).1 ≠ 0 → r = stm_err_t.STM_FAIL)) :=
  ⟨by decide, rfl, rfl, rfl,
    result_reflects_driver_status (constDriver (-1)) 2 0 0 5 9 3 h0 w0 (by decide) rfl rfl rfl⟩

/-! ## Configuration -/

theorem set_length_append {α : Type} (xs : List α) (a b : α) :
    (xs ++ [a]).set xs.length b = xs ++ [b] := by
  induction xs with
  | nil => rfl
  | cons x xs ih => simp [List.set, ih]

/-- An absent configuration: only the error is logged. -/
theorem config_absent {D : Type} (drv : EtrDriver D) (calloc_ok mutex_ok : Bool) (w : World D) :
    software_resolver_config drv calloc_ok mutex_ok none w =
      (none, { drv := w.drv, heap := w.heap, mutexes := w.mutexes,
               trace := w.trace ++ [Event.loge ErrStr.SOFTWARE_RESOLVER_INIT_ERR_STR] }) := rfl

/-- Allocation failure: the failed allocation and the error log are the only events. -/
theorem config_alloc_fail {D : Type} (drv : EtrDriver D) (mutex_ok : Bool)
    (c : software_resolver_config_t) (w : World D) :
    software_resolver_config drv false mutex_ok (some c) w =
      (none, { drv := w.drv, heap := w.heap, mutexes := w.mutexes,
               trace := w.trace ++ [Event.calloc none,
                 Event.loge ErrStr.SOFTWARE_RESOLVER_INIT_ERR_STR] }) := by
  simp [software_resolver_config, calloc, STM_LOGE, World.emit]

/-- Driver configuration failure: the fresh slot is released again. -/
theorem config_drv_fail {D : Type} (drv : EtrDriver D) (mutex_ok : Bool)
    (c : software_resolver_config_t) (w : World D)
    (hr : (drv.etr_config (cfgOf c) w.drv).1 ≠ 0) :
    software_resolver_config drv true mutex_ok (some c) w =
      (none, { drv := (drv.etr_config (cfgOf c) w.drv).2, heap := w.heap ++ [none],
               mutexes := w.mutexes,
               trace := w.trace ++ [Event.calloc (some w.heap.length),
                 Event.etr_config (cfgOf c) (drv.etr_config (cfgOf c) w.drv).1,
                 Event.loge ErrStr.SOFTWARE_RESOLVER_INIT_ERR_STR,
                 Event.free (some w.heap.length)] }) := by
  have hr2 : (drv.etr_config ⟨c.timer_num, c.timer_pins_pack, c.max_reload, c.counter_mode⟩ w.drv).1 ≠ 0 := hr
  simp [software_resolver_config, calloc, STM_LOGE, World.emit, _software_resolver_cleanup, free,
    hr2, set_length_append, cfgOf]

/-- Success: the handle is the fresh slot, filled from the configuration, with
whatever `mutex_create` returned as its guard. -/
theorem config_ok {D : Type} (drv : EtrDriver D) (mutex_ok : Bool)
    (c : software_resolver_config_t) (w : World D)
    (hr : (drv.etr_config (cfgOf c) w.drv).1 = 0) :
    software_resolver_config drv true mutex_ok (some c) w =
      (some w.heap.length,
        { drv := (drv.etr_config (cfgOf c) w.drv).2,
          heap := w.heap ++ [some
            { timer_num := c.timer_num, timer_pins_pack := c.timer_pins_pack,
              max_reload := c.max_reload, counter_mode := c.counter_mode,
              lock := if mutex_ok then some w.mutexes.length else none }],
          mutexes := if mutex_ok then w.mutexes ++ [false] else w.mutexes,
          trace := w.trace ++ [Event.calloc (some w.heap.length),
            Event.etr_config (cfgOf c) 0,
            Event.mutex_create (if mutex_ok then some w.mutexes.length else none)] }) := by
  have hr2 : (drv.etr_config ⟨c.timer_num, c.timer_pins_pack, c.max_reload, c.counter_mode⟩ w.drv).1 = 0 := hr
  cases mutex_ok <;>
  simp [software_resolver_config, calloc, World.emit, mutex_create, xSemaphoreCreateMutex,
    hr2, set_length_append, cfgOf]

theorem deref_append_length {D : Type} (w : World D) (hp : List (Option software_resolver_t))
    (x : software_resolver_t) (hw : w.heap = hp ++ [some x]) : deref w hp.length = some x := by
  simp [deref, hw]

/-! ## Argument checks -/

/-- C2: start, stop, get_value, set_value and set_mode called with a NULL handle,
and get_value called with a non-NULL handle and a NULL output pointer, return
STM_ERR_INVALID_ARG; the driver state, the heap (hence every handle) and the
mutex table are unchanged, and the only event produced is the error log: no
guard is taken and no driver operation is invoked. -/
theorem absent_argument_rejected {D : Type} (drv : EtrDriver D) (fuel p value : Nat)
    (out : Option Nat) (mode : timer_counter_mode_t) (w : World D) :
    software_resolver_start drv fuel none w =
      some (stm_err_t.STM_ERR_INVALID_ARG, 
        { drv := w.drv, heap := w.heap, mutexes := w.mutexes,
          trace := w.trace ++ [Event.loge ErrStr.SOFTWARE_RESOLVER_START_ERR_STR] }) ∧
    software_resolver_stop drv fuel none w =
      some (stm_err_t.STM_ERR_INVALID_ARG, 
        { drv := w.drv, heap := w.heap, mutexes := w.mutexes,
          trace := w.trace ++ [Event.loge ErrStr.SOFTWARE_RESOLVER_STOP_ERR_STR] }) ∧
    software_resolver_get_value drv fuel none out w =
      some (stm_err_t.STM_ERR_INVALID_ARG, out, 
        { drv := w.drv, heap := w.heap, mutexes := w.mutexes,
          trace := w.trace ++ [Event.loge ErrStr.SOFTWARE_RESOLVER_GET_VALUE_ERR_STR] }) ∧
    software_resolver_set_value drv fuel none value w =
      some (stm_err_t.STM_ERR_INVALID_ARG, 
        { drv := w.drv, heap := w.heap, mutexes := w.mutexes,
          trace := w.trace ++ [Event.loge ErrStr.SOFTWARE_RESOLVER_SET_VALUE_ERR_STR] }) ∧
    software_resolver_set_mode drv fuel none mode w =
      some (stm_err_t.STM_ERR_INVALID_ARG, 
        { drv := w.drv, heap := w.heap, mutexes := w.mutexes,
          trace := w.trace ++ [Event.loge ErrStr.SOFTWARE_RESOLVER_SET_COUNTER_MODE_ERR_STR] }) ∧
    software_resolver_get_value drv fuel (some p) none w =
      some (stm_err_t.STM_ERR_INVALID_ARG, none, 
        { drv := w.drv, heap := w.heap, mutexes := w.mutexes,
          trace := w.trace ++ [Event.loge ErrStr.SOFTWARE_RESOLVER_GET_VALUE_ERR_STR] }) :=
  ⟨rfl, rfl, rfl, rfl, rfl, rfl⟩

/-! ## Configuration: claims -/

/-- C4: software_resolver_config returns NULL exactly when the configuration is
absent, or the allocation fails, or the driver's configure call returns nonzero.
Whenever it returns NULL the number of live handle structures is what it was
before and the events of the call contain as many allocations as releases; with
an absent configuration nothing is allocated and the driver is not called; on a
configure failure the slot that was allocated is released before returning. -/
theorem config_null_iff_and_no_leak {D : Type} (drv : EtrDriver D) (calloc_ok mutex_ok : Bool)
    (config : Option software_resolver_config_t) (w : World D) :
    ((software_resolver_config drv calloc_ok mutex_ok config w).1 = none ↔
      (config = none ∨ calloc_ok = false ∨
        ∃ c, config = some c ∧ (drv.etr_config (cfgOf c) w.drv).1 ≠ 0)) ∧
    ((software_resolver_config drv calloc_ok mutex_ok config w).1 = none →
      liveCount (software_resolver_config drv calloc_ok mutex_ok config w).2.heap = liveCount w.heap ∧
      ∃ delta, (software_resolver_config drv calloc_ok mutex_ok config w).2.trace = w.trace ++ delta ∧ allocCount delta = freeCount delta) ∧
    (config = none →
      (software_resolver_config drv calloc_ok mutex_ok config w).2.heap = w.heap ∧
      (software_resolver_config drv calloc_ok mutex_ok config w).2.drv = w.drv ∧
      (software_resolver_config drv calloc_ok mutex_ok config w).2.trace =
        w.trace ++ [Event.loge ErrStr.SOFTWARE_RESOLVER_INIT_ERR_STR]) ∧
    (∀ c, config = some c → calloc_ok = true → (drv.etr_config (cfgOf c) w.drv).1 ≠ 0 →
      (software_resolver_config drv calloc_ok mutex_ok config w).2.heap = w.heap ++ [none] ∧
      (software_resolver_config drv calloc_ok mutex_ok config w).2.trace =
        w.trace ++ [Event.calloc (some w.heap.length),
          Event.etr_config (cfgOf c) (drv.etr_config (cfgOf c) w.drv).1,
          Event.loge ErrStr.SOFTWARE_RESOLVER_INIT_ERR_STR,
          Event.free (some w.heap.length)]) := by
  cases config with
  | none =>
    rw [config_absent]
    refine ⟨by simp, fun _ => ⟨rfl, _, rfl, by decide⟩, fun _ => ⟨rfl, rfl, rfl⟩, ?_⟩
    intro c hc; cases hc
  | some c =>
    cases calloc_ok with
    | false =>
      rw [config_alloc_fail]
      refine ⟨by simp, fun _ => ⟨rfl, _, rfl, by decide⟩, fun hc => (by cases hc), ?_⟩
      intro c1 _ hc; cases hc
    | true =>
      by_cases hr : (drv.etr_config (cfgOf c) w.drv).1 = 0
      · rw [config_ok drv mutex_ok c w hr]
        refine ⟨by simp [hr], fun hc => (by cases hc), fun hc => (by cases hc), ?_⟩
        intro c1 hc _ hne
        cases hc
        exact absurd hr hne
      · rw [config_drv_fail drv mutex_ok c w hr]
        refine ⟨by simp [hr], fun _ => ⟨by simp [liveCount], _, rfl, by simp [allocCount, freeCount]⟩,
          fun hc => (by cases hc), ?_⟩
        intro c1 hc _ _
        cases hc
        exact ⟨rfl, rfl⟩

/-- C5: when the allocation succeeds and the driver's configure call returns 0,
software_resolver_config returns a handle whose timer identity, pin pack, max
reload and counter mode equal the configuration's, and the events of the call
contain exactly one driver configure call, made with exactly those four values. -/
theorem config_success_copies_fields {D : Type} (drv : EtrDriver D) (mutex_ok : Bool)
    (c : software_resolver_config_t) (w : World D)
    (hr : (drv.etr_config (cfgOf c) w.drv).1 = 0) :
    ∃ p w' h, software_resolver_config drv true mutex_ok (some c) w = (some p, w') ∧
      deref w' p = some h ∧
      h.timer_num = c.timer_num ∧ h.timer_pins_pack = c.timer_pins_pack ∧
      h.max_reload = c.max_reload ∧ h.counter_mode = c.counter_mode ∧
      w'.trace = w.trace ++ [Event.calloc (some p),
        Event.etr_config ⟨c.timer_num, c.timer_pins_pack, c.max_reload, c.counter_mode⟩ 0,
        Event.mutex_create h.lock] := by
  refine ⟨_, _, _, config_ok drv mutex_ok c w hr, deref_append_length _ _ _ rfl, rfl, rfl, rfl, rfl, ?_⟩
  simp [cfgOf]

/-- Instance of C5 on the empty world with a driver that always succeeds. -/
theorem config_success_copies_fields_witness :
    ((constDriver 0).etr_config (cfgOf c0) wEmpty.drv).1 = 0 ∧
    (∃ p w' h, software_resolver_config (constDriver 0) true true (some c0) wEmpty = (some p, w') ∧
      deref w' p = some h ∧
      h.timer_num = c0.timer_num ∧ h.timer_pins_pack = c0.timer_pins_pack ∧
      h.max_reload = c0.max_reload ∧ h.counter_mode = c0.counter_mode ∧
      w'.trace = wEmpty.trace ++ [Event.calloc (some p),
        Event.etr_config ⟨c0.timer_num, c0.timer_pins_pack, c0.max_reload, c0.counter_mode⟩ 0,
        Event.mutex_create h.lock]) :=
  ⟨rfl, config_success_copies_fields (constDriver 0) true c0 wEmpty rfl⟩

/-- C10: software_resolver_config does not look at the result of mutex creation.
When the allocation succeeds, the driver's configure call returns 0 and mutex
creation fails, a handle is still returned; its guard is NULL and its four
configuration fields are populated.  For every input, the returned pointer is the
same whether mutex creation succeeds or fails. -/
theorem config_ignores_mutex_create_result {D : Type} (drv : EtrDriver D)
    (c : software_resolver_config_t) (w : World D)
    (hr : (drv.etr_config (cfgOf c) w.drv).1 = 0) :
    (∃ p w' h, software_resolver_config drv true false (some c) w = (some p, w') ∧
      deref w' p = some h ∧ h.lock = none ∧
      h.timer_num = c.timer_num ∧ h.timer_pins_pack = c.timer_pins_pack ∧
      h.max_reload = c.max_reload ∧ h.counter_mode = c.counter_mode) ∧
    (∀ (calloc_ok : Bool) (config : Option software_resolver_config_t),
      (software_resolver_config drv calloc_ok false config w).1 =
        (software_resolver_config drv calloc_ok true config w).1) := by
  refine ⟨⟨_, _, _, config_ok drv false c w hr, deref_append_length _ _ _ rfl, rfl, rfl, rfl, rfl, rfl⟩, ?_⟩
  intro calloc_ok config
  cases config with
  | none => rfl
  | some c1 =>
    cases calloc_ok with
    | false => simp [config_alloc_fail]
    | true =>
      by_cases h1 : (drv.etr_config (cfgOf c1) w.drv).1 = 0
      · simp [config_ok drv _ c1 w h1]
      · simp [config_drv_fail drv _ c1 w h1]

/-- Instance of C10 on the empty world with a driver that always succeeds. -/
theorem config_ignores_mutex_create_result_witness :
    ((constDriver 0).etr_config (cfgOf c0) wEmpty.drv).1 = 0 ∧
    ((∃ p w' h, software_resolver_config (constDriver 0) true false (some c0) wEmpty = (some p, w') ∧
      deref w' p = some h ∧ h.lock = none ∧
      h.timer_num = c0.timer_num ∧ h.timer_pins_pack = c0.timer_pins_pack ∧
      h.max_reload = c0.max_reload ∧ h.counter_mode = c0.counter_mode) ∧
    (∀ (calloc_ok : Bool) (config : Option software_resolver_config_t),
      (software_resolver_config (constDriver 0) calloc_ok false config wEmpty).1 =
        (software_resolver_config (constDriver 0) calloc_ok true config wEmpty).1)) :=
  ⟨rfl, config_ignores_mutex_create_result (constDriver 0) c0 wEmpty rfl⟩

/-! ## Values and modes -/

/-- C8: software_resolver_set_value on a live handle with a free guard, for every
value (so for every 32-bit value) and whatever the handle's max reload is, produces exactly the events
guard taken, one driver write call carrying the handle's timer identity and the
value itself, (a log entry on a nonzero status), guard given back; the driver
state on return is the one that call produced and the result is STM_OK when the
call returned 0 and STM_FAIL otherwise. -/
theorem set_value_passes_value_through {D : Type} (drv : EtrDriver D) (fuel p l value : Nat)
    (h : software_resolver_t) (w : World D)
    (hfuel : 0 < fuel) (hp : deref w p = some h) (hl : h.lock = some l)
    (hf : w.mutexes[l]? = some false) :
    ∃ r w', software_resolver_set_value drv fuel (some p) value w = some (r, w') ∧
      w'.trace = w.trace ++ guardedCall l
        (Event.etr_set_value h.timer_num value (drv.etr_set_value h.timer_num value w.drv).1)
        (drv.etr_set_value h.timer_num value w.drv).1 ErrStr.SOFTWARE_RESOLVER_SET_VALUE_ERR_STR ∧
      w'.drv = (drv.etr_set_value h.timer_num value w.drv).2 ∧
      r = (if (drv.etr_set_value h.timer_num value w.drv).1 = 0 then stm_err_t.STM_OK
           else stm_err_t.STM_FAIL) := by
  obtain ⟨k, rfl⟩ : ∃ k, fuel = k + 1 := ⟨fuel - 1, by omega⟩
  exact ⟨_, _, set_value_run drv k p l h value w hp hl hf, by simp [guardedCall], rfl, rfl⟩

/-- Instance of C8: the largest 32-bit value, far above the max reload 1000 of `h0`. -/
theorem set_value_passes_value_through_witness :
    0 < 1 ∧ 4294967295 < UINT32_MOD ∧ h0.max_reload < 4294967295 ∧
    deref w0 0 = some h0 ∧ h0.lock = some 0 ∧ w0.mutexes[0]? = some false ∧
    ∃ r w', software_resolver_set_value (constDriver 0) 1 (some 0) 4294967295 w0 = some (r, w') ∧
      w'.trace = w0.trace ++ guardedCall 0
        (Event.etr_set_value h0.timer_num 4294967295
          ((constDriver 0).etr_set_value h0.timer_num 4294967295 w0.drv).1)
        ((constDriver 0).etr_set_value h0.timer_num 4294967295 w0.drv).1
        ErrStr.SOFTWARE_RESOLVER_SET_VALUE_ERR_STR ∧
      w'.drv = ((constDriver 0).etr_set_value h0.timer_num 4294967295 w0.drv).2 ∧
      r = (if ((constDriver 0).etr_set_value h0.timer_num 4294967295 w0.drv).1 = 0
           then stm_err_t.STM_OK else stm_err_t.STM_FAIL) :=
  ⟨by decide, by decide, by decide, rfl, rfl, rfl,
    set_value_passes_value_through (constDriver 0) 1 0 0 4294967295 h0 w0
      (by decide) rfl rfl rfl⟩

/-- C7: over a driver whose write call stores the value for the timer and returns
0 and whose read call then returns that value and 0, for every live handle with a
free guard and every value between 0 and the handle's max reload,
software_resolver_set_value followed by software_resolver_get_value both return
STM_OK and the output cell holds the value written. -/
theorem set_value_get_value_round_trip {D : Type} (drv : EtrDriver D) (fuel p l value old : Nat)
    (h : software_resolver_t) (w : World D)
    (hwrite : ∀ t v d, (drv.etr_set_value t v d).1 = 0)
    (hread : ∀ t v d o, (drv.etr_get_value t o (drv.etr_set_value t v d).2).1 = 0 ∧
      (drv.etr_get_value t o (drv.etr_set_value t v d).2).2.1 = v)
    (hfuel : 0 < fuel) (hp : deref w p = some h) (hl : h.lock = some l)
    (hf : w.mutexes[l]? = some false)
    (hv : value ≤ h.max_reload) (hm : h.max_reload < UINT32_MOD) :
    ∃ w1 w2, software_resolver_set_value drv fuel (some p) value w = some (stm_err_t.STM_OK, w1) ∧
      software_resolver_get_value drv fuel (some p) (some old) w1 =
        some (stm_err_t.STM_OK, some value, w2) := by
  obtain ⟨k, rfl⟩ : ∃ k, fuel = k + 1 := ⟨fuel - 1, by omega⟩
  obtain ⟨tr, e1⟩ : ∃ tr, software_resolver_set_value drv (k + 1) (some p) value w =
      some (stm_err_t.STM_OK,
        { drv := (drv.etr_set_value h.timer_num value w.drv).2, heap := w.heap,
          mutexes := w.mutexes, trace := tr }) :=
    ⟨_, by rw [set_value_run drv k p l h value w hp hl hf, if_pos (hwrite _ _ _)]⟩
  have e2 := get_value_run drv k p l old h
    { drv := (drv.etr_set_value h.timer_num value w.drv).2, heap := w.heap,
      mutexes := w.mutexes, trace := tr } hp hl hf
  have h1 := hread h.timer_num value w.drv old
  simp only [h1.1, h1.2, if_true, Nat.mod_eq_of_lt (lt_of_le_of_lt hv hm)] at e2
  exact ⟨_, _, e1, e2⟩

/-- Instance of C7 over the fake driver: 1000 is written to and read back from the
handle `h0`, whose max reload is 1000; the output cell held 5 before. -/
theorem set_value_get_value_round_trip_witness :
    (∀ t v d, (fakeDriver.etr_set_value t v d).1 = 0) ∧
    (∀ t v d o, (fakeDriver.etr_get_value t o (fakeDriver.etr_set_value t v d).2).1 = 0 ∧
      (fakeDriver.etr_get_value t o (fakeDriver.etr_set_value t v d).2).2.1 = v) ∧
    0 < 1 ∧ deref wFake 0 = some h0 ∧ h0.lock = some 0 ∧ wFake.mutexes[0]? = some false ∧
    1000 ≤ h0.max_reload ∧ h0.max_reload < UINT32_MOD ∧
    ∃ w1 w2, software_resolver_set_value fakeDriver 1 (some 0) 1000 wFake =
        some (stm_err_t.STM_OK, w1) ∧
      software_resolver_get_value fakeDriver 1 (some 0) (some 5) w1 =
        some (stm_err_t.STM_OK, some 1000, w2) :=
  ⟨fun _ _ _ => rfl, fun _ _ _ _ => ⟨rfl, by simp [fakeDriver]⟩, by decide, rfl, rfl, rfl,
    by decide, by decide,
    set_value_get_value_round_trip fakeDriver 1 0 0 1000 5 h0 wFake
      (fun _ _ _ => rfl) (fun _ _ _ _ => ⟨rfl, by simp [fakeDriver]⟩)
      (by decide) rfl rfl rfl (by decide) (by decide)⟩

/-- C6 (what the code does): on the handle `h0`, whose stored counter mode is 0,
software_resolver_set_mode with mode 1 over a driver that succeeds returns STM_OK
and the handle's stored counter mode is still 0, not 1. -/
theorem set_mode_leaves_stored_mode_stale :
    ∃ w' h, software_resolver_set_mode (constDriver 0) 1 (some 0) 1 w0 =
        some (stm_err_t.STM_OK, w') ∧
      deref w' 0 = some h ∧ h.counter_mode = 0 ∧ h.counter_mode ≠ 1 :=
  ⟨_, h0, set_mode_run (constDriver 0) 0 0 0 h0 1 w0 rfl rfl rfl, rfl, rfl, by decide⟩

/-! ## Mutual exclusion of driver calls -/

theorem held_congr {D : Type} (p : Nat) (w w1 : World D) (hh : w1.heap = w.heap)
    (hm : w1.mutexes = w.mutexes) (h : Held p w) : Held p w1 := by
  obtain ⟨x, l, h1, h2, h3⟩ := h
  exact ⟨x, l, by simpa [deref, hh] using h1, h2, by simpa [hm] using h3⟩

theorem driverCall_heap {D : Type} (drv : EtrDriver D) (h : software_resolver_t) (op : Op)
    (w : World D) : (driverCall drv h op w).2.2.heap = w.heap ∧
      (driverCall drv h op w).2.2.mutexes = w.mutexes := by
  cases op <;> exact ⟨rfl, rfl⟩

/-- A task that does not become a holder, in a world that keeps the guard held. -/
theorem guardInv_keep {D : Type} (p : Nat) (s : Sys D) (w1 : World D) (t : Nat) (pc : Pc)
    (hI : GuardInv p s) (hw : Held p s.w → Held p w1)
    (hpc : pc.holdsGuard = true → (s.pcs t).holdsGuard = true) :
    GuardInv p ({ s with w := w1 }.goto t pc) := by
  have key : ∀ i, (({ s with w := w1 }.goto t pc).pcs i).holdsGuard = true →
      (s.pcs i).holdsGuard = true := by
    intro i hi
    by_cases hit : i = t
    · subst hit
      exact hpc (by simpa [Sys.goto] using hi)
    · simpa [Sys.goto, hit] using hi
  exact ⟨fun i j hi hj => hI.1 i j (key i hi) (key j hj), fun i hi => hw (hI.2 i (key i hi))⟩

/-- The holder stops being one: nobody holds the guard afterwards. -/
theorem guardInv_release {D : Type} (p : Nat) (s : Sys D) (w1 : World D) (t : Nat) (pc : Pc)
    (hI : GuardInv p s) (ht : (s.pcs t).holdsGuard = true) (hpc : pc.holdsGuard = false) :
    GuardInv p ({ s with w := w1 }.goto t pc) := by
  have key : ∀ i, ¬ (({ s with w := w1 }.goto t pc).pcs i).holdsGuard = true := by
    intro i hi
    by_cases hit : i = t
    · subst hit
      simp [Sys.goto, hpc] at hi
    · have h1 : (s.pcs i).holdsGuard = true := by simpa [Sys.goto, hit] using hi
      exact hit (hI.1 i t h1 ht)
  exact ⟨fun i _ hi _ => absurd hi (key i), fun i hi => absurd hi (key i)⟩

/-- Nobody holds the guard and one task becomes the holder. -/
theorem guardInv_acquire {D : Type} (p : Nat) (s : Sys D) (w1 : World D) (t : Nat) (pc : Pc)
    (hnone : ∀ i, ¬ (s.pcs i).holdsGuard = true) (hw : Held p w1) :
    GuardInv p ({ s with w := w1 }.goto t pc) := by
  have key : ∀ i, (({ s with w := w1 }.goto t pc).pcs i).holdsGuard = true → i = t := by
    intro i hi
    by_cases hit : i = t
    · exact hit
    · exact absurd (by simpa [Sys.goto, hit] using hi) (hnone i)
  exact ⟨fun i j hi hj => (key i hi).trans (key j hj).symm, fun _ _ => hw⟩

theorem guardInv_init {D : Type} (p : Nat) (w : World D) : GuardInv p (init w) :=
  ⟨fun i _ hi _ => by simp [init, Pc.holdsGuard] at hi,
   fun i hi => by simp [init, Pc.holdsGuard] at hi⟩

theorem guardInv_step {D : Type} (drv : EtrDriver D) (p : Nat) (s : Sys D) (e : Sched)
    (hI : GuardInv p s) : GuardInv p (step drv p s e) := by
  unfold step
  split
  next hpc => exact guardInv_keep p s s.w e.task _ hI id (by simp [Pc.holdsGuard])
  next hpc => exact guardInv_keep p s s.w e.task _ hI id (by simp [Pc.holdsGuard])
  next op hpc =>
    split
    next => exact guardInv_keep p s s.w e.task _ hI id (by simp [Pc.holdsGuard])
    next h hd =>
      cases hl : h.lock with
      | none => simpa [xSemaphoreTake] using
          guardInv_keep p s s.w e.task Pc.stuck hI id (by simp [Pc.holdsGuard])
      | some l =>
        cases hm : s.w.mutexes[l]? with
        | none => simpa [xSemaphoreTake, hm] using
            guardInv_keep p s s.w e.task Pc.stuck hI id (by simp [Pc.holdsGuard])
        | some b =>
          cases b with
          | true => simpa [xSemaphoreTake, hm] using hI
          | false =>
            simp only [xSemaphoreTake, hm]
            refine guardInv_acquire p s _ e.task _ ?_ ?_
            · intro i hi
              obtain ⟨x, l1, h1, h2, h3⟩ := hI.2 i hi
              rw [hd] at h1
              cases h1
              rw [hl] at h2
              cases h2
              rw [hm] at h3
              cases h3
            · exact ⟨h, l, hd, hl, getElem?_set_same _ _ _ _ hm⟩
  next op hpc =>
    exact guardInv_keep p s s.w e.task _ hI id (by simp [hpc, Pc.holdsGuard])
  next op hpc =>
    split
    next => exact guardInv_keep p s s.w e.task _ hI id (by simp [Pc.holdsGuard])
    next h hd =>
      exact guardInv_keep p s _ e.task _ hI
        (held_congr p _ _ (driverCall_heap drv h op s.w).1 (driverCall_heap drv h op s.w).2)
        (by simp [hpc, Pc.holdsGuard])
  next op ret out hpc =>
    split
    next => exact guardInv_keep p s s.w e.task _ hI id (by simp [Pc.holdsGuard])
    next h hd =>
      split
      next => exact guardInv_keep p s s.w e.task _ hI id (by simp [Pc.holdsGuard])
      next w3 hu =>
        exact guardInv_release p s w3 e.task _ hI (by simp [hpc, Pc.holdsGuard])
          (by simp [Pc.holdsGuard])
  next hpc => exact hI

theorem guardInv_run {D : Type} (drv : EtrDriver D) (p : Nat) (sched : List Sched) (s : Sys D)
    (hI : GuardInv p s) : GuardInv p (run drv p s sched) := by
  induction sched generalizing s with
  | nil => exact hI
  | cons e rest ih => exact ih (step drv p s e) (guardInv_step drv p s e hI)

theorem holdsGuard_of_inDriver (pc : Pc) (h : pc.inDriver = true) : pc.holdsGuard = true := by
  cases pc <;> simp_all [Pc.inDriver, Pc.holdsGuard]

/-- C9: tasks call the guarded operations on one handle, starting from any world
with every task outside any operation.  Whatever the interleaving, two different
tasks are never inside a driver call at the same time, and whenever a task is
inside a driver call the handle is live and its mutex is held. -/
theorem driver_calls_mutually_exclusive {D : Type} (drv : EtrDriver D) (p : Nat) (w : World D)
    (sched : List Sched) (i j : Nat) (hij : i ≠ j) :
    ¬ (((run drv p (init w) sched).pcs i).inDriver = true ∧
       ((run drv p (init w) sched).pcs j).inDriver = true) ∧
    (((run drv p (init w) sched).pcs i).inDriver = true →
      Held p (run drv p (init w) sched).w) := by
  have hI := guardInv_run drv p sched (init w) (guardInv_init p w)
  refine ⟨?_, fun h => hI.2 i (holdsGuard_of_inDriver _ h)⟩
  rintro ⟨h1, h2⟩
  exact hij (hI.1 i j (holdsGuard_of_inDriver _ h1) (holdsGuard_of_inDriver _ h2))

/-- Instance of C9 on the schedule `sched0` over the world `w0`: task 0 is inside
its driver call, task 1 is still waiting in `mutex_lock`. -/
theorem driver_calls_mutually_exclusive_witness :
    (0 : Nat) ≠ 1 ∧
    (run (constDriver 0) 0 (init w0) sched0).pcs 0 = Pc.in_driver Op.start ∧
    (run (constDriver 0) 0 (init w0) sched0).pcs 1 = Pc.locking (Op.get_value 5) ∧
    ¬ (((run (constDriver 0) 0 (init w0) sched0).pcs 0).inDriver = true ∧
       ((run (constDriver 0) 0 (init w0) sched0).pcs 1).inDriver = true) ∧
    (((run (constDriver 0) 0 (init w0) sched0).pcs 0).inDriver = true →
      Held 0 (run (constDriver 0) 0 (init w0) sched0).w) :=
  ⟨by decide, rfl, rfl, driver_calls_mutually_exclusive (constDriver 0) 0 w0 sched0 0 1 (by decide)⟩

/-! ## The interleaved model against the functions -/

theorem deref_same_heap {D : Type} (p : Nat) (w : World D) (d : D) (ms : List Bool)
    (tr : List Event) :
    deref ({ drv := d, heap := w.heap, mutexes := ms, trace := tr } : World D) p = deref w p := rfl

/-- A task that runs the five statements of an operation without being preempted,
on a live handle with a free guard, leaves the world that the function called as a
whole leaves, and returns what that function returns. -/
theorem solo_run_agrees {D : Type} (drv : EtrDriver D) (p t l : Nat) (op : Op)
    (h : software_resolver_t) (s : Sys D) (hpc : s.pcs t = Pc.idle)
    (hp : deref s.w p = some h) (hl : h.lock = some l) (hf : s.w.mutexes[l]? = some false) :
    ∃ r out w1, callOp drv 1 p op s.w = some (r, out, w1) ∧
      (run drv p s (List.replicate 5 ⟨t, op⟩)).w = w1 ∧
      (run drv p s (List.replicate 5 ⟨t, op⟩)).pcs t = Pc.returned r out := by
  have hf1 := getElem?_set_same _ _ _ true hf
  have hs1 := set_same_of_getElem? _ _ _ hf
  cases op with
  | start =>
    refine ⟨_, _, _, by rw [callOp, start_run drv 0 p l h s.w hp hl hf]; rfl, ?_, ?_⟩
    · by_cases hr : (drv.etr_start h.timer_num s.w.drv).1 = 0 <;>
      simp [run, List.replicate, step, Sys.goto, hpc, deref_same_heap, hp, hl, hf, hf1, hs1,
        xSemaphoreTake, driverCall, mutex_unlock, xSemaphoreGive, STM_LOGE, World.emit, hr,
        set_set_same, Op.err]
    · by_cases hr : (drv.etr_start h.timer_num s.w.drv).1 = 0 <;>
      simp [run, List.replicate, step, Sys.goto, hpc, deref_same_heap, hp, hl, hf, hf1, hs1,
        xSemaphoreTake, driverCall, mutex_unlock, xSemaphoreGive, STM_LOGE, World.emit, hr,
        set_set_same, Op.err]
  | stop =>
    refine ⟨_, _, _, by rw [callOp, stop_run drv 0 p l h s.w hp hl hf]; rfl, ?_, ?_⟩
    · by_cases hr : (drv.etr_stop h.timer_num s.w.drv).1 = 0 <;>
      simp [run, List.replicate, step, Sys.goto, hpc, deref_same_heap, hp, hl, hf, hf1, hs1,
        xSemaphoreTake, driverCall, mutex_unlock, xSemaphoreGive, STM_LOGE, World.emit, hr,
        set_set_same, Op.err]
    · by_cases hr : (drv.etr_stop h.timer_num s.w.drv).1 = 0 <;>
      simp [run, List.replicate, step, Sys.goto, hpc, deref_same_heap, hp, hl, hf, hf1, hs1,
        xSemaphoreTake, driverCall, mutex_unlock, xSemaphoreGive, STM_LOGE, World.emit, hr,
        set_set_same, Op.err]
  | get_value old =>
    refine ⟨_, _, _, by rw [callOp, get_value_run drv 0 p l old h s.w hp hl hf], ?_, ?_⟩
    · by_cases hr : (drv.etr_get_value h.timer_num old s.w.drv).1 = 0 <;>
      simp [run, List.replicate, step, Sys.goto, hpc, deref_same_heap, hp, hl, hf, hf1, hs1,
        xSemaphoreTake, driverCall, mutex_unlock, xSemaphoreGive, STM_LOGE, World.emit, hr,
        set_set_same, Op.err]
    · by_cases hr : (drv.etr_get_value h.timer_num old s.w.drv).1 = 0 <;>
      simp [run, List.replicate, step, Sys.goto, hpc, deref_same_heap, hp, hl, hf, hf1, hs1,
        xSemaphoreTake, driverCall, mutex_unlock, xSemaphoreGive, STM_LOGE, World.emit, hr,
        set_set_same, Op.err]
  | set_value value =>
    refine ⟨_, _, _, by rw [callOp, set_value_run drv 0 p l h value s.w hp hl hf]; rfl, ?_, ?_⟩
    · by_cases hr : (drv.etr_set_value h.timer_num value s.w.drv).1 = 0 <;>
      simp [run, List.replicate, step, Sys.goto, hpc, deref_same_heap, hp, hl, hf, hf1, hs1,
        xSemaphoreTake, driverCall, mutex_unlock, xSemaphoreGive, STM_LOGE, World.emit, hr,
        set_set_same, Op.err]
    · by_cases hr : (drv.etr_set_value h.timer_num value s.w.drv).1 = 0 <;>
      simp [run, List.replicate, step, Sys.goto, hpc, deref_same_heap, hp, hl, hf, hf1, hs1,
        xSemaphoreTake, driverCall, mutex_unlock, xSemaphoreGive, STM_LOGE, World.emit, hr,
        set_set_same, Op.err]
  | set_mode mode =>
    refine ⟨_, _, _, by rw [callOp, set_mode_run drv 0 p l h mode s.w hp hl hf]; rfl, ?_, ?_⟩
    · by_cases hr : (drv.etr_set_mode h.timer_num mode s.w.drv).1 = 0 <;>
      simp [run, List.replicate, step, Sys.goto, hpc, deref_same_heap, hp, hl, hf, hf1, hs1,
        xSemaphoreTake, driverCall, mutex_unlock, xSemaphoreGive, STM_LOGE, World.emit, hr,
        set_set_same, Op.err]
    · by_cases hr : (drv.etr_set_mode h.timer_num mode s.w.drv).1 = 0 <;>
      simp [run, List.replicate, step, Sys.goto, hpc, deref_same_heap, hp, hl, hf, hf1, hs1,
        xSemaphoreTake, driverCall, mutex_unlock, xSemaphoreGive, STM_LOGE, World.emit, hr,
        set_set_same, Op.err]

end SoftwareResolver
